import Mathlib

/-!
Verification of the NES outage service core (`src/nes_service.py`, `src/server.py`).

The Python code is shallowly embedded: floating-point numbers are idealised as
real numbers, JSON documents as an inductive `Json` type, HTTP calls as an
explicit outcome parameter, and the in-place mutation performed by the ranking
loop as an explicit post-state function.  Python's `sorted` (a stable sort by a
total key) is modelled by `List.insertionSort`, which Mathlib proves sorted and
stable for the total preorder induced by the sort key.
-/

namespace NES

open Real

/-- The `Coordinates` dataclass (`nes_service.py`), in its well-typed form:
`lat`/`lng` hold floats.  `geocode_address` can also build the dataclass with
`None` fields; that shape is modelled separately by `GeocodeCoordinates`. -/
structure Coordinates where
  lat : ℝ
  lng : ℝ

/-- The `OutageEvent` dataclass (`nes_service.py`).  Fields typed by the
dataclass annotations, except that `id` and `identifier` are `Option`s because
`fetch_nes_events` reads them with `item.get(...)` without a default, so a feed
record lacking them stores Python `None` in the field. -/
structure OutageEvent where
  id : Option ℤ
  identifier : Option String
  title : String
  status : String
  cause : Option String
  num_people : ℤ
  start_time : ℤ
  last_updated_time : ℤ
  latitude : ℝ
  longitude : ℝ
  distance_miles : Option ℝ := none

/-- `math.radians(x)`: degrees to radians. -/
noncomputable def radians (x : ℝ) : ℝ := x * (Real.pi / 180)

/-- `math.atan2(y, x)`, modelled as the argument of the complex number
`x + y*i`, which agrees with `atan2` on all of its range `(-π, π]`. -/
noncomputable def atan2 (y x : ℝ) : ℝ := Complex.arg ⟨x, y⟩

/-- `haversine_miles(lat1, lng1, lat2, lng2)` (`nes_service.py` lines 82-97):
great-circle distance in miles, spherical radius 3959. -/
noncomputable def haversine_miles (lat1 lng1 lat2 lng2 : ℝ) : ℝ :=
  let R : ℝ := 3959
  let lat1_rad := radians lat1
  let lat2_rad := radians lat2
  let delta_lat := radians (lat2 - lat1)
  let delta_lng := radians (lng2 - lng1)
  let a := Real.sin (delta_lat / 2) ^ 2 +
    Real.cos lat1_rad * Real.cos lat2_rad * Real.sin (delta_lng / 2) ^ 2
  let c := 2 * atan2 (Real.sqrt a) (Real.sqrt (1 - a))
  R * c

end NES

/-- Symmetry of the haversine kernel: the squared sine of half the (signed)
angle difference does not depend on the order of the endpoints. -/
theorem NES.sin_half_radians_sub_sq (x y : ℝ) :
    Real.sin (NES.radians (x - y) / 2) ^ 2 = Real.sin (NES.radians (y - x) / 2) ^ 2 := by
  have h : NES.radians (x - y) / 2 = -(NES.radians (y - x) / 2) := by
    simp only [NES.radians]; ring
  rw [h, Real.sin_neg, neg_sq]

/-- haversine is symmetric in its two endpoints. -/
theorem NES.haversine_miles_symm (lat1 lng1 lat2 lng2 : ℝ) :
    NES.haversine_miles lat1 lng1 lat2 lng2 = NES.haversine_miles lat2 lng2 lat1 lng1 := by
  unfold NES.haversine_miles
  dsimp only
  rw [NES.sin_half_radians_sub_sq lat2 lat1, NES.sin_half_radians_sub_sq lng2 lng1,
    mul_comm (Real.cos (NES.radians lat1)) (Real.cos (NES.radians lat2))]

/-- haversine of a point with itself is exactly zero (in the real-number
idealisation of the floating-point code). -/
theorem NES.haversine_miles_self (lat lng : ℝ) :
    NES.haversine_miles lat lng lat lng = 0 := by
  have hone : (⟨1, 0⟩ : ℂ) = 1 := by
    apply Complex.ext <;> simp
  unfold NES.haversine_miles NES.atan2 NES.radians
  simp [hone, Complex.arg_one]

namespace NES

/-- The loop body of `find_nearest_events` (lines 147-151): overwrite the
event's `distance_miles` with the haversine distance from the reference. -/
noncomputable def annotate (coords : Coordinates) (e : OutageEvent) : OutageEvent :=
  let d := haversine_miles coords.lat coords.lng e.latitude e.longitude
  { e with distance_miles := some d }

/-- The `for event in events` loop of `find_nearest_events`: the loop mutates
every event object of the caller-supplied list in place, so this is both the
list the sort below works on and the post-state of the caller's list after the
call returns. -/
noncomputable def annotateAll (coords : Coordinates) : List OutageEvent → List OutageEvent
  | [] => []
  | e :: rest => annotate coords e :: annotateAll coords rest

/-- The sort key `lambda e: e.distance_miles or float('inf')` (line 153).
Python's `or` returns `inf` whenever `distance_miles` is falsy, which covers
`None` *and* the float `0.0`. -/
noncomputable def sortKey (e : OutageEvent) : WithTop ℝ :=
  match e.distance_miles with
  | none => ⊤
  | some d => if d = 0 then ⊤ else (d : WithTop ℝ)

/-- The ordering used by `sorted(events, key=...)`. -/
noncomputable def sortRel (a b : OutageEvent) : Prop := sortKey a ≤ sortKey b

noncomputable instance : DecidableRel sortRel := fun _ _ => Classical.propDecidable _

instance : IsTotal OutageEvent sortRel := ⟨fun a b => le_total (sortKey a) (sortKey b)⟩

instance : IsTrans OutageEvent sortRel := ⟨fun _ _ _ h h' => le_trans h h'⟩

/-- `sorted(events, key=lambda e: e.distance_miles or float('inf'))`:
Python's `sorted` is a stable sort by a total key, modelled by insertion
sort. -/
noncomputable def sortEvents (events : List OutageEvent) : List OutageEvent :=
  events.insertionSort sortRel

/-- Python list slicing `xs[:limit]` for an arbitrary (possibly negative)
integer `limit`: a nonnegative limit takes the first `limit` elements, a
negative limit drops the last `-limit` elements. -/
def pyTake {α : Type} (limit : ℤ) (xs : List α) : List α :=
  if 0 ≤ limit then xs.take limit.toNat else xs.take ((xs.length : ℤ) + limit).toNat

/-- `find_nearest_events(coords, limit, events)` (lines 128-154) in
caller-supplied-events mode: annotate every event with its distance, sort by
the key above, return the slice `[:limit]`.  Live mode is obtained by passing
the result of `fetch_nes_events` for `events` (line 144-145).  The caller's
list still holds the same (mutated) objects afterwards: its post-state is
`annotateAll coords events`. -/
noncomputable def find_nearest_events (coords : Coordinates) (limit : ℤ)
    (events : List OutageEvent) : List OutageEvent :=
  pyTake limit (sortEvents (annotateAll coords events))

theorem length_annotateAll (coords : Coordinates) (events : List OutageEvent) :
    (annotateAll coords events).length = events.length := by
  induction events with
  | nil => rfl
  | cons e rest ih => simp [annotateAll, ih]

theorem length_sortEvents (events : List OutageEvent) :
    (sortEvents events).length = events.length :=
  List.length_insertionSort _ _

theorem length_pyTake {α : Type} (limit : ℤ) (xs : List α) :
    (pyTake limit xs).length =
      if 0 ≤ limit then min limit.toNat xs.length else ((xs.length : ℤ) + limit).toNat := by
  unfold pyTake
  split
  · simp
  · simp only [List.length_take]
    omega

theorem length_find_nearest_events (coords : Coordinates) (limit : ℤ)
    (events : List OutageEvent) :
    (find_nearest_events coords limit events).length =
      if 0 ≤ limit then min limit.toNat events.length
      else ((events.length : ℤ) + limit).toNat := by
  unfold find_nearest_events
  rw [length_pyTake, length_sortEvents, length_annotateAll]

end NES

namespace NES

/-- haversine from the origin to the antipodal point on the equator is half
the circumference, `3959 * π`. -/
theorem haversine_zero_antipodal : haversine_miles 0 0 0 180 = 3959 * Real.pi := by
  have hI : (⟨0, 1⟩ : ℂ) = Complex.I := by
    apply Complex.ext <;> simp
  unfold haversine_miles atan2 radians
  dsimp only
  have e1 : ((0 : ℝ) - 0) * (Real.pi / 180) / 2 = 0 := by ring
  have e2 : (0 : ℝ) * (Real.pi / 180) = 0 := by ring
  have e3 : ((180 : ℝ) - 0) * (Real.pi / 180) / 2 = Real.pi / 2 := by ring
  rw [e1, e2, e3, Real.sin_zero, Real.cos_zero, Real.sin_pi_div_two]
  norm_num [hI, Complex.arg_I]
  ring

/-- A sample event located exactly at the origin, distance not yet set. -/
noncomputable def evAtOrigin : OutageEvent :=
  { id := none, identifier := none, title := "", status := "", cause := none,
    num_people := 0, start_time := 0, last_updated_time := 0,
    latitude := 0, longitude := 0, distance_miles := none }

/-- A sample event at the point antipodal to the origin on the equator. -/
noncomputable def evAntipode : OutageEvent := { evAtOrigin with longitude := 180 }

/-- The origin as a reference coordinate. -/
noncomputable def origin : Coordinates := ⟨0, 0⟩

theorem sortKey_annotate_evAtOrigin : sortKey (annotate origin evAtOrigin) = ⊤ := by
  simp [sortKey, annotate, origin, evAtOrigin, haversine_miles_self]

theorem sortKey_annotate_evAntipode :
    sortKey (annotate origin evAntipode) = ((3959 * Real.pi : ℝ) : WithTop ℝ) := by
  have hne : (3959 : ℝ) * Real.pi ≠ 0 := by positivity
  simp [sortKey, annotate, origin, evAtOrigin, evAntipode, haversine_zero_antipodal, hne]

theorem sortEvents_pair :
    sortEvents [annotate origin evAtOrigin, annotate origin evAntipode] =
      [annotate origin evAntipode, annotate origin evAtOrigin] := by
  have hns : ¬ sortRel (annotate origin evAtOrigin) (annotate origin evAntipode) := by
    rw [sortRel, sortKey_annotate_evAtOrigin, sortKey_annotate_evAntipode]
    intro h
    exact WithTop.coe_ne_top (top_le_iff.mp h)
  have h1 : sortEvents [annotate origin evAtOrigin, annotate origin evAntipode] =
      List.orderedInsert sortRel (annotate origin evAtOrigin)
        [annotate origin evAntipode] := rfl
  rw [h1]
  simp only [List.orderedInsert, if_neg hns]

/-- "sorted non-decreasing by `distance_miles`" for a pair of events, as used
by the spec's ranking invariant. -/
def distanceLE (e f : OutageEvent) : Prop :=
  ∀ x y, e.distance_miles = some x → f.distance_miles = some y → x ≤ y

theorem annotate_evAntipode_distance :
    (annotate origin evAntipode).distance_miles = some (3959 * Real.pi) := by
  simp [annotate, origin, evAtOrigin, evAntipode, haversine_zero_antipodal]

theorem annotate_evAtOrigin_distance :
    (annotate origin evAtOrigin).distance_miles = some 0 := by
  simp [annotate, origin, evAtOrigin, haversine_miles_self]

end NES

/-- C1: refuted on the code as written.  With reference `(0,0)`, events at
`(0,0)` and `(0,180)` and limit `2`, `find_nearest_events` returns the two
events with `distance_miles` populated (`3959π` and `0` miles) but in the
order `[far, near]`: the zero-distance event is falsy for Python's `or`, gets
sort key `+inf`, and is sorted last, so the result is not non-decreasing by
`distance_miles`. -/
theorem NES.rank_zero_distance_event_sorts_last :
    NES.find_nearest_events NES.origin 2 [NES.evAtOrigin, NES.evAntipode] =
      [NES.annotate NES.origin NES.evAntipode, NES.annotate NES.origin NES.evAtOrigin] ∧
    (NES.annotate NES.origin NES.evAntipode).distance_miles = some (3959 * Real.pi) ∧
    (NES.annotate NES.origin NES.evAtOrigin).distance_miles = some 0 ∧
    ¬ List.Pairwise NES.distanceLE
        (NES.find_nearest_events NES.origin 2 [NES.evAtOrigin, NES.evAntipode]) := by
  have hres : NES.find_nearest_events NES.origin 2 [NES.evAtOrigin, NES.evAntipode] =
      [NES.annotate NES.origin NES.evAntipode, NES.annotate NES.origin NES.evAtOrigin] := by
    unfold NES.find_nearest_events
    rw [show NES.annotateAll NES.origin [NES.evAtOrigin, NES.evAntipode] =
        [NES.annotate NES.origin NES.evAtOrigin, NES.annotate NES.origin NES.evAntipode] from
        rfl, NES.sortEvents_pair]
    rfl
  refine ⟨hres, NES.annotate_evAntipode_distance, NES.annotate_evAtOrigin_distance, ?_⟩
  rw [hres]
  intro hp
  have h2 := (List.pairwise_cons.mp hp).1 _ (List.mem_singleton.mpr rfl)
  have h3 := h2 (3959 * Real.pi) 0 NES.annotate_evAntipode_distance
    NES.annotate_evAtOrigin_distance
  have hpos : (0 : ℝ) < 3959 * Real.pi := by positivity
  linarith

/-- C8: the distance calculator is symmetric in its two endpoints, and the
distance from any point to itself is exactly zero (real-number idealisation
of the floating-point code, so "within tolerance" holds with zero error). -/
theorem NES.haversine_symm_and_self_zero :
    (∀ lat1 lng1 lat2 lng2 : ℝ,
      NES.haversine_miles lat1 lng1 lat2 lng2 = NES.haversine_miles lat2 lng2 lat1 lng1) ∧
    (∀ lat lng : ℝ, NES.haversine_miles lat lng lat lng = 0) :=
  ⟨NES.haversine_miles_symm, NES.haversine_miles_self⟩

/-- C2 counterexample: with limit `-1` and two events, `find_nearest_events`
does not return the empty list (Python's `xs[:-1]` drops only the last
element), refuting "every limit ≤ 0 yields an empty sequence". -/
theorem NES.rank_negative_limit_not_empty :
    NES.find_nearest_events NES.origin (-1) [NES.evAtOrigin, NES.evAntipode] ≠ [] := by
  intro h
  have hlen := congrArg List.length h
  rw [NES.length_find_nearest_events] at hlen
  norm_num at hlen

/-- C2 amended: limit `0` yields an empty result, but a negative limit `l`
returns all but the last `-l` sorted events, i.e. the result length is
`max 0 (len + l)` (empty only when `-l ≥ len`). -/
theorem NES.rank_limit_nonpos_length (coords : NES.Coordinates)
    (events : List NES.OutageEvent) (limit : ℤ) (h : limit ≤ 0) :
    (NES.find_nearest_events coords limit events).length =
      if limit = 0 then 0 else ((events.length : ℤ) + limit).toNat := by
  rw [NES.length_find_nearest_events]
  rcases eq_or_lt_of_le h with rfl | hlt
  · simp
  · rw [if_neg (by omega), if_neg (by omega)]

/-- C2 witness: the amended statement evaluated at limit `-1` with two
events: one event is returned. -/
theorem NES.rank_limit_nonpos_length_witness :
    (-1 : ℤ) ≤ 0 ∧
    (NES.find_nearest_events NES.origin (-1) [NES.evAtOrigin, NES.evAntipode]).length = 1 := by
  refine ⟨by norm_num, ?_⟩
  rw [NES.rank_limit_nonpos_length NES.origin [NES.evAtOrigin, NES.evAntipode] (-1)
    (by norm_num)]
  norm_num

/-- C3 counterexample: ranking does not operate on copies.  After the call,
the caller-supplied list's elements are the post-state `annotateAll`; for an
event whose `distance_miles` was unset, the post-state differs from the
input, i.e. the input event was mutated. -/
theorem NES.rank_mutates_caller_events :
    NES.annotateAll NES.origin [NES.evAtOrigin] ≠ [NES.evAtOrigin] := by
  intro h
  have h1 : NES.annotate NES.origin NES.evAtOrigin = NES.evAtOrigin := by
    have h0 := congrArg List.head? h
    simpa [NES.annotateAll] using h0
  have h2 := congrArg NES.OutageEvent.distance_miles h1
  simp [NES.annotate, NES.evAtOrigin] at h2

/-- C3 amended: `find_nearest_events` annotates the caller's events in
place.  The post-state of the caller's list has the same length, and the
`i`-th event is the `i`-th input event with its `distance_miles` overwritten
by the computed haversine distance and every other field unchanged. -/
theorem NES.rank_annotates_in_place (coords : NES.Coordinates)
    (events : List NES.OutageEvent) :
    (NES.annotateAll coords events).length = events.length ∧
    (∀ i : ℕ, (NES.annotateAll coords events)[i]? =
      (events[i]?).map (NES.annotate coords)) ∧
    (∀ e : NES.OutageEvent,
      (NES.annotate coords e).distance_miles =
        some (NES.haversine_miles coords.lat coords.lng e.latitude e.longitude) ∧
      (NES.annotate coords e).id = e.id ∧
      (NES.annotate coords e).identifier = e.identifier ∧
      (NES.annotate coords e).title = e.title ∧
      (NES.annotate coords e).status = e.status ∧
      (NES.annotate coords e).cause = e.cause ∧
      (NES.annotate coords e).num_people = e.num_people ∧
      (NES.annotate coords e).start_time = e.start_time ∧
      (NES.annotate coords e).last_updated_time = e.last_updated_time ∧
      (NES.annotate coords e).latitude = e.latitude ∧
      (NES.annotate coords e).longitude = e.longitude) := by
  refine ⟨NES.length_annotateAll _ _, ?_, ?_⟩
  · intro i
    induction events generalizing i with
    | nil => simp [NES.annotateAll]
    | cons e rest ih =>
      cases i with
      | zero => simp [NES.annotateAll]
      | succ n => simpa [NES.annotateAll] using ih n
  · intro e
    refine ⟨rfl, rfl, rfl, rfl, rfl, rfl, rfl, rfl, rfl, rfl, rfl⟩

namespace NES

theorem filter_orderedInsert (p : OutageEvent → Bool) (a : OutageEvent)
    (l : List OutageEvent)
    (hcl : ∀ b ∈ l, p b = true → p a = true → sortRel a b) :
    (List.orderedInsert sortRel a l).filter p =
      if p a then a :: l.filter p else l.filter p := by
  induction l with
  | nil =>
    cases hpa : p a <;> simp [List.orderedInsert, List.filter_cons, hpa]
  | cons b t ih =>
    rw [List.orderedInsert]
    by_cases hr : sortRel a b
    · rw [if_pos hr]
      cases hpa : p a <;> simp [List.filter_cons, hpa]
    · rw [if_neg hr]
      have ih' := ih fun c hc hpc hpa => hcl c (List.mem_cons_of_mem _ hc) hpc hpa
      cases hpa : p a with
      | true =>
        have hpb : p b = false := by
          cases hpbv : p b
          · rfl
          · exact absurd (hcl b (List.mem_cons_self _ _) hpbv hpa) hr
        simp [List.filter_cons, hpb, hpa, ih']
      | false =>
        simp [List.filter_cons, hpa, ih']

theorem filter_sortEvents (p : OutageEvent → Bool) (l : List OutageEvent)
    (hcl : ∀ a ∈ l, ∀ b ∈ l, p a = true → p b = true → sortRel a b) :
    (sortEvents l).filter p = l.filter p := by
  induction l with
  | nil => rfl
  | cons e t ih =>
    have hc : ∀ b ∈ List.insertionSort sortRel t, p b = true → p e = true → sortRel e b := by
      intro b hb hpb hpe
      exact hcl e (List.mem_cons_self _ _) b
        (List.mem_cons_of_mem _ ((List.mem_insertionSort _).mp hb)) hpe hpb
    have ih' := ih fun a ha b hb =>
      hcl a (List.mem_cons_of_mem _ ha) b (List.mem_cons_of_mem _ hb)
    rw [sortEvents] at ih' ⊢
    rw [List.insertionSort, filter_orderedInsert p e _ hc, ih']
    cases hpe : p e <;> simp [List.filter_cons, hpe]

theorem filter_take_pre {α : Type} (p : α → Bool) (n : ℕ) (xs : List α) :
    (xs.take n).filter p <+: xs.filter p := by
  conv_rhs => rw [← List.take_append_drop n xs]
  rw [List.filter_append]
  exact List.prefix_append _ _

theorem filter_pyTake (p : OutageEvent → Bool) (limit : ℤ) (xs : List OutageEvent) :
    (pyTake limit xs).filter p <+: xs.filter p := by
  unfold pyTake
  split
  · exact filter_take_pre p _ xs
  · exact filter_take_pre p _ xs

end NES

/-- C7: ranking is stable.  For every computed distance value `d`, the
subsequence of returned events whose `distance_miles` is `d` is an initial
segment of the subsequence, in input order, of the annotated input events
whose `distance_miles` is `d`: events with equal computed distance keep their
relative input order in the output (truncation can only cut the tail). -/
theorem NES.rank_stable_on_equal_distances (coords : NES.Coordinates) (limit : ℤ)
    (events : List NES.OutageEvent) (d : ℝ) :
    ((NES.find_nearest_events coords limit events).filter
        (fun e => decide (e.distance_miles = some d))) <+:
      ((NES.annotateAll coords events).filter
        (fun e => decide (e.distance_miles = some d))) := by
  have hcl : ∀ a ∈ NES.annotateAll coords events, ∀ b ∈ NES.annotateAll coords events,
      decide (a.distance_miles = some d) = true →
      decide (b.distance_miles = some d) = true → NES.sortRel a b := by
    intro a _ b _ hpa hpb
    have ha : a.distance_miles = some d := of_decide_eq_true hpa
    have hb : b.distance_miles = some d := of_decide_eq_true hpb
    unfold NES.sortRel NES.sortKey
    rw [ha, hb]
  have h1 := NES.filter_pyTake (fun e => decide (e.distance_miles = some d)) limit
    (NES.sortEvents (NES.annotateAll coords events))
  have h2 := NES.filter_sortEvents (fun e => decide (e.distance_miles = some d))
    (NES.annotateAll coords events) hcl
  rw [NES.find_nearest_events]
  exact h2 ▸ h1

namespace NES

/-- JSON documents, as returned by `resp.json()`.  Numbers are modelled as
rationals (every JSON numeric literal is one). -/
inductive Json where
  | null : Json
  | bool (b : Bool) : Json
  | num (q : ℚ) : Json
  | str (s : String) : Json
  | arr (items : List Json) : Json
  | obj (fields : List (String × Json)) : Json

/-- Python exceptions that escape the service code uncaught: `AttributeError`
(calling `.get` on a non-dict, indexing chars of a string, ...) and
`TypeError` (iterating or subscripting a non-sequence). -/
inductive PyErr where
  | attributeError : PyErr
  | typeError : PyErr

/-- The outcome of `requests.get`: a network-level failure (connection error,
timeout, ... — every `requests.RequestException` raised before a response
body exists), or a response with a status code and a body.  `body = none`
models a body that is not valid JSON: `resp.json()` then raises
`requests.exceptions.JSONDecodeError`, a `RequestException` subclass. -/
inductive HttpResult where
  | netFail : HttpResult
  | response (status : ℕ) (body : Option Json) : HttpResult

/-- `resp.raise_for_status()` raises `requests.HTTPError` exactly for status
codes in `[400, 600)`. -/
def isErrorStatus (status : ℕ) : Prop := 400 ≤ status ∧ status < 600

instance (status : ℕ) : Decidable (isErrorStatus status) :=
  inferInstanceAs (Decidable (_ ∧ _))

/-- The `Coordinates` dataclass as actually constructed inside
`geocode_address` (lines 73-77): `coords.get("y")` / `coords.get("x")` yield
`None` when the key is absent, so the fields are optional.  A present value is
idealised to its numeric content. -/
structure GeocodeCoordinates where
  lat : Option ℝ
  lng : Option ℝ

/-- The numeric content of an optional JSON field value, for the idealised
typed reading of `coords.get("y")` / `coords.get("x")`. -/
noncomputable def jnum : Option Json → Option ℝ
  | some (.num q) => some (q : ℝ)
  | _ => none

/-- `geocode_address(address)` (`nes_service.py` lines 53-79) as a function of
the upstream HTTP outcome (the address string only affects the request URL,
never the control flow).  `Except.error` marks an uncaught Python exception;
the `try` block catches exactly `requests.RequestException`, `KeyError` and
`IndexError`.  `.ok none` is the `None` ("not found") return. -/
noncomputable def geocode_address (r : HttpResult) :
    Except PyErr (Option GeocodeCoordinates) :=
  match r with
  | .netFail => .ok none
  | .response status body =>
    if isErrorStatus status then .ok none
    else
      match body with
      | none => .ok none
      | some data =>
        match data with
        | .obj kvs =>
          match (List.lookup "result" kvs).getD (.obj []) with
          | .obj rkvs =>
            match (List.lookup "addressMatches" rkvs).getD (.arr []) with
            | .arr [] => .ok none
            | .arr (m :: _) =>
              match m with
              | .obj mkvs =>
                match (List.lookup "coordinates" mkvs).getD (.obj []) with
                | .obj ckvs =>
                  .ok (some ⟨jnum (List.lookup "y" ckvs), jnum (List.lookup "x" ckvs)⟩)
                | _ => .error .attributeError
              | _ => .error .attributeError
            | .null => .ok none
            | .bool false => .ok none
            | .bool true => .error .typeError
            | .num q => if q = 0 then .ok none else .error .typeError
            | .str s => if s = "" then .ok none else .error .attributeError
            | .obj _ => .ok none
          | _ => .error .attributeError
        | _ => .error .attributeError

/-- A geocoder response body whose first address match carries coordinates
`(y, x) = (a, b)` followed by arbitrary further matches. -/
def geoBody (a b : ℚ) (rest : List Json) : Json :=
  .obj [("result", .obj [("addressMatches",
    .arr (.obj [("coordinates", .obj [("x", .num b), ("y", .num a)])] :: rest))])]

end NES

/-- C5: `geocode_address` returns `None` (never an exception, never a partial
result) on network failure, on an HTTP error status regardless of body, on a
malformed JSON body, and on an empty address-match list; on success it reads
only the first match and returns its `y`/`x` values as the coordinates,
ignoring all further matches. -/
theorem NES.geocode_swallows_failures_first_match :
    (NES.geocode_address .netFail = .ok none) ∧
    (∀ (s : ℕ) (body : Option NES.Json), NES.isErrorStatus s →
      NES.geocode_address (.response s body) = .ok none) ∧
    (∀ s : ℕ, ¬ NES.isErrorStatus s →
      NES.geocode_address (.response s none) = .ok none) ∧
    (∀ (s : ℕ) (kvs rkvs : List (String × NES.Json)), ¬ NES.isErrorStatus s →
      List.lookup "result" kvs = some (.obj rkvs) →
      List.lookup "addressMatches" rkvs = some (.arr []) →
      NES.geocode_address (.response s (some (.obj kvs))) = .ok none) ∧
    (∀ (s : ℕ) (a b : ℚ) (rest : List NES.Json), ¬ NES.isErrorStatus s →
      NES.geocode_address (.response s (some (NES.geoBody a b rest))) =
        .ok (some ⟨some (a : ℝ), some (b : ℝ)⟩)) := by
  refine ⟨rfl, ?_, ?_, ?_, ?_⟩
  · intro s body hs
    unfold NES.geocode_address
    dsimp only
    rw [if_pos hs]
  · intro s hs
    unfold NES.geocode_address
    dsimp only
    rw [if_neg hs]
  · intro s kvs rkvs hs h1 h2
    unfold NES.geocode_address
    dsimp only
    rw [if_neg hs]
    simp only [h1, Option.getD_some, h2]
  · intro s a b rest hs
    unfold NES.geocode_address
    dsimp only
    rw [if_neg hs]
    rfl

/-- C5 witness: the theorem evaluated at concrete upstream outcomes —
a 404 status, a well-formed 200 response with a single match at `(1, 2)`,
and a 200 response whose match list is empty. -/
theorem NES.geocode_swallows_failures_first_match_witness :
    (NES.geocode_address (.response 404 none) = .ok none) ∧
    (NES.geocode_address (.response 200 (some (NES.geoBody 1 2 []))) =
      .ok (some ⟨some ((1 : ℚ) : ℝ), some ((2 : ℚ) : ℝ)⟩)) ∧
    (NES.geocode_address (.response 200 (some (.obj
      [("result", .obj [("addressMatches", .arr [])])]))) = .ok none) := by
  refine ⟨?_, ?_, ?_⟩
  · exact NES.geocode_swallows_failures_first_match.2.1 404 none (by norm_num [NES.isErrorStatus])
  · exact NES.geocode_swallows_failures_first_match.2.2.2.2 200 1 2 []
      (by norm_num [NES.isErrorStatus])
  · exact NES.geocode_swallows_failures_first_match.2.2.2.1 200
      [("result", .obj [("addressMatches", .arr [])])] [("addressMatches", .arr [])]
      (by norm_num [NES.isErrorStatus]) rfl rfl

/-- C9: a successful geocoder response whose first match has no
`coordinates` object makes `geocode_address` return a `Coordinates` value
with both fields `None`, not the not-found signal. -/
theorem NES.geocode_missing_coordinates_partial_result :
    NES.geocode_address (.response 200 (some (.obj
      [("result", .obj [("addressMatches", .arr [.obj []])])]))) =
      .ok (some ⟨none, none⟩) := by
  unfold NES.geocode_address
  dsimp only
  rw [if_neg (by norm_num [NES.isErrorStatus])]
  rfl

namespace NES

/-- `item.get(k)` read as an optional string (typed by the dataclass
annotation; a present value of another runtime type is idealised to the
missing case). -/
def jStrOpt (kvs : List (String × Json)) (k : String) : Option String :=
  match List.lookup k kvs with
  | some (.str s) => some s
  | _ => none

/-- `item.get(k)` read as an optional integer. -/
def jIntOpt (kvs : List (String × Json)) (k : String) : Option ℤ :=
  match List.lookup k kvs with
  | some (.num q) => if q.den = 1 then some q.num else none
  | _ => none

/-- `item.get(k, dflt)` read as a string with a default. -/
def jStrD (kvs : List (String × Json)) (k : String) (dflt : String) : String :=
  match List.lookup k kvs with
  | some (.str s) => s
  | _ => dflt

/-- `item.get(k, dflt)` read as an integer with a default. -/
def jIntD (kvs : List (String × Json)) (k : String) (dflt : ℤ) : ℤ :=
  match List.lookup k kvs with
  | some (.num q) => if q.den = 1 then q.num else dflt
  | _ => dflt

/-- `item.get(k, dflt)` read as a float with a default. -/
noncomputable def jRealD (kvs : List (String × Json)) (k : String) (dflt : ℝ) : ℝ :=
  match List.lookup k kvs with
  | some (.num q) => (q : ℝ)
  | _ => dflt

/-- The `OutageEvent(...)` construction of `fetch_nes_events` (lines
111-122) for one feed record: every field read with `item.get`, with the
defaults of the source (`""`, `0`) where the source passes one. -/
noncomputable def decodeItem (kvs : List (String × Json)) : OutageEvent :=
  { id := jIntOpt kvs "id"
    identifier := jStrOpt kvs "identifier"
    title := jStrD kvs "title" ""
    status := jStrD kvs "status" ""
    cause := jStrOpt kvs "cause"
    num_people := jIntD kvs "numPeople" 0
    start_time := jIntD kvs "startTime" 0
    last_updated_time := jIntD kvs "lastUpdatedTime" 0
    latitude := jRealD kvs "latitude" 0
    longitude := jRealD kvs "longitude" 0
    distance_miles := none }

/-- The `for item in data` loop of `fetch_nes_events`: each item must be a
dict (else `item.get` raises `AttributeError`, which the surrounding `try`
does not catch). -/
noncomputable def parseItems : List Json → Except PyErr (List OutageEvent)
  | [] => .ok []
  | .obj kvs :: rest => (parseItems rest).map (fun evs => decodeItem kvs :: evs)
  | _ :: _ => .error .attributeError

/-- `fetch_nes_events()` (`nes_service.py` lines 100-125) as a function of the
upstream HTTP outcome.  The `try` block catches exactly
`requests.RequestException` (which includes `raise_for_status`'s `HTTPError`
and `resp.json()`'s `JSONDecodeError`); iterating a non-list body raises
`TypeError` (scalars) or `AttributeError` (`.get` on dict keys / string
characters), both uncaught.  Degenerate empty iterables (empty dict, empty
string) iterate zero times and return the empty list. -/
noncomputable def fetch_nes_events (r : HttpResult) : Except PyErr (List OutageEvent) :=
  match r with
  | .netFail => .ok []
  | .response status body =>
    if isErrorStatus status then .ok []
    else
      match body with
      | none => .ok []
      | some data =>
        match data with
        | .arr items => parseItems items
        | .obj [] => .ok []
        | .obj (_ :: _) => .error .attributeError
        | .str s => if s = "" then .ok [] else .error .attributeError
        | .null => .error .typeError
        | .bool _ => .error .typeError
        | .num _ => .error .typeError

theorem parseItems_all_objects (items : List (List (String × Json))) :
    parseItems (items.map Json.obj) = .ok (items.map decodeItem) := by
  induction items with
  | nil => rfl
  | cons kvs rest ih => simp [parseItems, ih, Except.map]

end NES

/-- C4 counterexample: an upstream response whose body is valid JSON but not
a list (here the number `1`) makes `fetch_nes_events` raise an uncaught
`TypeError` instead of returning a (possibly empty) event sequence. -/
theorem NES.fetch_raises_on_non_list_body :
    NES.fetch_nes_events (.response 200 (some (.num 1))) =
      .error NES.PyErr.typeError := by
  unfold NES.fetch_nes_events
  dsimp only
  rw [if_neg (by norm_num [NES.isErrorStatus])]

/-- C4 amended: `fetch_nes_events` returns the empty sequence on network
failure, on an HTTP error status, and on a malformed JSON body; a body that
is a JSON list of objects yields one `OutageEvent` per record.  A
successfully parsed body that is not a list of objects, however, raises an
uncaught `TypeError`/`AttributeError` (it is not turned into an empty
sequence). -/
theorem NES.fetch_swallows_transport_errors :
    (NES.fetch_nes_events .netFail = .ok []) ∧
    (∀ (s : ℕ) (body : Option NES.Json), NES.isErrorStatus s →
      NES.fetch_nes_events (.response s body) = .ok []) ∧
    (∀ s : ℕ, ¬ NES.isErrorStatus s →
      NES.fetch_nes_events (.response s none) = .ok []) ∧
    (∀ (s : ℕ) (items : List (List (String × NES.Json))), ¬ NES.isErrorStatus s →
      NES.fetch_nes_events (.response s (some (.arr (items.map NES.Json.obj)))) =
        .ok (items.map NES.decodeItem)) := by
  refine ⟨rfl, ?_, ?_, ?_⟩
  · intro s body hs
    unfold NES.fetch_nes_events
    dsimp only
    rw [if_pos hs]
  · intro s hs
    unfold NES.fetch_nes_events
    dsimp only
    rw [if_neg hs]
  · intro s items hs
    unfold NES.fetch_nes_events
    dsimp only
    rw [if_neg hs]
    exact NES.parseItems_all_objects items

/-- C4 witness: the amended statement evaluated at concrete outcomes — a 500
status, a malformed body at status 200, and a 200 body holding a list with a
single empty-object record, which decodes to one all-default event. -/
theorem NES.fetch_swallows_transport_errors_witness :
    (NES.fetch_nes_events (.response 500 (some (.num 1))) = .ok []) ∧
    (NES.fetch_nes_events (.response 200 none) = .ok []) ∧
    (NES.fetch_nes_events (.response 200 (some (.arr [.obj []]))) =
      .ok [NES.decodeItem []]) := by
  refine ⟨?_, ?_, ?_⟩
  · exact NES.fetch_swallows_transport_errors.2.1 500 (some (.num 1))
      (by norm_num [NES.isErrorStatus])
  · exact NES.fetch_swallows_transport_errors.2.2.1 200 (by norm_num [NES.isErrorStatus])
  · exact NES.fetch_swallows_transport_errors.2.2.2 200 [[]]
      (by norm_num [NES.isErrorStatus])

namespace NES

/-- A value of the JSON-serialisable result dicts built by
`find_nearest_by_address` and the route handlers: a string, a coordinates
object, or a list of (to-be-serialised) outage events. -/
inductive RVal where
  | s (v : String) : RVal
  | coords (lat lng : ℝ) : RVal
  | events (evs : List OutageEvent) : RVal

/-- `find_nearest_by_address(address, limit)` (`nes_service.py` lines
157-176), as a function of the two upstream outcomes it depends on: the
geocoding result for the address (`none` models the `None` "could not
geocode" return, in the well-typed case of C5/C9) and the event list the
internal `fetch_nes_events` call produces.  The returned Python dict is
modelled as an ordered key/value list. -/
noncomputable def find_nearest_by_address (g : Option Coordinates)
    (fetched : List OutageEvent) (address : String) (limit : ℤ) :
    List (String × RVal) :=
  match g with
  | none => [("error", .s "Could not geocode address"), ("query_address", .s address)]
  | some coords =>
    [("query_address", .s address),
      ("coordinates", .coords coords.lat coords.lng),
      ("events", .events (find_nearest_events coords limit fetched))]

end NES

/-- C6: when geocoding yields the not-found signal, the orchestrator returns
exactly the dict `{error: "Could not geocode address", query_address:
<input>}` — in particular it has no `coordinates` and no `events` key; when
geocoding succeeds, it returns the query string, the resolved coordinates
and the ranked event list. -/
theorem NES.orchestrator_error_and_success_shape :
    ∀ (address : String) (limit : ℤ) (fetched : List NES.OutageEvent),
    (NES.find_nearest_by_address none fetched address limit =
        [("error", .s "Could not geocode address"), ("query_address", .s address)] ∧
      List.lookup "coordinates" (NES.find_nearest_by_address none fetched address limit)
        = none ∧
      List.lookup "events" (NES.find_nearest_by_address none fetched address limit)
        = none) ∧
    (∀ coords : NES.Coordinates,
      NES.find_nearest_by_address (some coords) fetched address limit =
        [("query_address", .s address),
          ("coordinates", .coords coords.lat coords.lng),
          ("events", .events (NES.find_nearest_events coords limit fetched))]) := by
  intro address limit fetched
  exact ⟨⟨rfl, rfl, rfl⟩, fun _ => rfl⟩

namespace NES.Server

/-- Truthiness of `request.args.get(...)`: `None` (missing parameter) and the
empty string are falsy, every other string truthy. -/
def truthyArg : Option String → Bool
  | none => false
  | some v => !v.isEmpty

/-- `int(request.args.get("limit", 5))`: the default is already an int;
a supplied string is parsed, `ValueError` modelled as `none`. -/
def parseLimit : Option String → Option ℤ
  | none => some 5
  | some v => v.trim.toInt?

/-- The error body `{"error": msg}`. -/
def errBody (msg : String) : List (String × NES.RVal) := [("error", .s msg)]

/-- The `/nearest` handler (`server.py` lines 35-58), as a function of the
request's query parameters and of the upstream outcomes consumed by
`find_nearest_by_address` (geocoding result and fetched events).  Returns
the HTTP status code and the JSON body. -/
noncomputable def nearest (addr limitArg : Option String) (g : Option NES.Coordinates)
    (fetched : List NES.OutageEvent) : ℕ × List (String × NES.RVal) :=
  if truthyArg addr = false then
    (400, errBody "Missing required 'address' parameter")
  else
    match parseLimit limitArg with
    | none => (400, errBody "Invalid 'limit' parameter")
    | some limit =>
      let result := NES.find_nearest_by_address g fetched (addr.getD "") limit
      if (List.lookup "error" result).isSome then (404, result) else (200, result)

/-- The `/geocode` handler (`server.py` lines 61-80), as a function of the
request's `address` parameter and the geocoding outcome. -/
noncomputable def geocode (addr : Option String) (g : Option NES.Coordinates) :
    ℕ × List (String × NES.RVal) :=
  if truthyArg addr = false then
    (400, errBody "Missing required 'address' parameter")
  else
    match g with
    | none => (404, errBody "Could not geocode address")
    | some coords =>
      (200, [("address", .s (addr.getD "")),
        ("coordinates", .coords coords.lat coords.lng)])

end NES.Server

/-- C10: on `/nearest` and `/geocode`, an `address` parameter that is present
but empty behaves exactly like a missing parameter: HTTP 400 with an error
body, with a response that is independent of the geocoding outcome (the
geocoder is never consulted). -/
theorem NES.Server.empty_address_is_missing_address :
    ∀ (limitArg : Option String) (g : Option NES.Coordinates)
      (fetched : List NES.OutageEvent),
    (NES.Server.nearest (some "") limitArg g fetched =
        (400, NES.Server.errBody "Missing required 'address' parameter")) ∧
    (NES.Server.nearest (some "") limitArg g fetched =
        NES.Server.nearest none limitArg g fetched) ∧
    (NES.Server.geocode (some "") g =
        (400, NES.Server.errBody "Missing required 'address' parameter")) ∧
    (NES.Server.geocode (some "") g = NES.Server.geocode none g) := by
  intro limitArg g fetched
  exact ⟨rfl, rfl, rfl, rfl⟩
